import Mathlib

/-!
Verification of the inter-CPU latch bridge, protection-logic replica and
screen-timing interrupt bridge of the `mrdo.cpp` and `docastle.cpp` arcade
drivers, via a shallow embedding of the relevant handlers.

Bytes are modelled as `Nat` values below 256; where C truncates to `u8`,
the embedding applies the truncation explicitly.
-/

/-- `BIT(x, n)` from the emulator framework: extract bit `n` of `x`. -/
def BIT (x n : Nat) : Nat := (x >>> n) &&& 1

namespace MrdoDriver

/-- Protection-related state of the `mrdo_state` driver class:
`u8 m_pal_u001`, `bool m_pal_enabled` and the constructor-fixed
`bool const m_bypass_pal`. -/
structure MrdoState where
  pal_u001 : Nat
  pal_enabled : Bool
  bypass_pal : Bool
deriving Repr, DecidableEq

/-- Which `update_protection` override is in effect: the base `mrdo_state`
(empty body) or the `mrdot_state` override (PAL16R6 equations). -/
inductive MrdoVariant
  | mrdo
  | mrdot
deriving Repr, DecidableEq

/-- In-class member initializers of `mrdo_state`: `m_pal_u001 = 0`,
`m_pal_enabled = true`; `m_bypass_pal` is the constructor argument
(`true` by default, `false` when constructed through `mrdot_state`). -/
def initState (bypass : Bool) : MrdoState :=
  { pal_u001 := 0, pal_enabled := true, bypass_pal := bypass }

/-- `mrdo_state::set_protection(bool state)`: `m_pal_enabled = state`. -/
def set_protection (state : Bool) (s : MrdoState) : MrdoState :=
  { s with pal_enabled := state }

/-- `mrdo_state::machine_reset()`: initial outputs are high on power-up,
`m_pal_u001 = 0xff`. -/
def machine_reset (s : MrdoState) : MrdoState :=
  { s with pal_u001 := 0xff }

/-- `mrdo_state::update_protection(u8 data)`: the base-class body is empty,
the call leaves all state unchanged. -/
def mrdo_update_protection (_data : Nat) (s : MrdoState) : MrdoState := s

/-- The value latched by `mrdot_state::update_protection(u8 data)`:
PAL16R6 IC U001, equations extracted from the dump using jedutil.
`~` on a `u8` operand truncated back to `u8` is complement within 8 bits;
the OR of the disjoint single-bit terms is below 256, so it is `255 ^^^ _`. -/
def mrdot_pal_value (data : Nat) : Nat :=
  let i9 := BIT data 0
  let i8 := BIT data 1
  -- i7 := BIT data 2 is commented out in the source: pin 7 not used in equations
  let i6 := BIT data 3
  let i5 := BIT data 4
  let i4 := BIT data 5
  let i3 := BIT data 6
  let i2 := BIT data 7
  let t1 := i2 &&& (1 ^^^ i3) &&& i4 &&& (1 ^^^ i5) &&& (1 ^^^ i6) &&& (1 ^^^ i8) &&& i9
  let t2 := (1 ^^^ i2) &&& (1 ^^^ i3) &&& i4 &&& i5 &&& (1 ^^^ i6) &&& i8 &&& (1 ^^^ i9)
  let t3 := i2 &&& i3 &&& (1 ^^^ i4) &&& (1 ^^^ i5) &&& i6 &&& (1 ^^^ i8) &&& i9
  let t4 := (1 ^^^ i2) &&& i3 &&& i4 &&& (1 ^^^ i5) &&& i6 &&& i8 &&& i9
  let r12 := 0
  let r13 := t1 <<< 1
  let r14 := (t1 ||| t2) <<< 2
  let r15 := (t1 ||| t3) <<< 3
  let r16 := t1 <<< 4
  let r17 := (t1 ||| t3) <<< 5
  let r18 := (t3 ||| t4) <<< 6
  let r19 := 0
  255 ^^^ (r19 ||| r18 ||| r17 ||| r16 ||| r15 ||| r14 ||| r13 ||| r12)

/-- `mrdot_state::update_protection(u8 data)`: each write latches a new value
on IC U001, `m_pal_u001 = ~(r19 | r18 | r17 | r16 | r15 | r14 | r13 | r12)`. -/
def mrdot_update_protection (data : Nat) (s : MrdoState) : MrdoState :=
  { s with pal_u001 := mrdot_pal_value data }

/-- Virtual dispatch of `update_protection` by driver class. -/
def update_protection : MrdoVariant → Nat → MrdoState → MrdoState
  | MrdoVariant.mrdo => mrdo_update_protection
  | MrdoVariant.mrdot => mrdot_update_protection

/-- `mrdo_state::protection_w(u8 data)`: clock the PAL replica when enabled. -/
def protection_w (v : MrdoVariant) (data : Nat) (s : MrdoState) : MrdoState :=
  if s.pal_enabled then update_protection v data s else s

/-- `mrdo_state::protection_r(address_space &space)`. `rom` models
`memregion("maincpu")->base()`, `hl` the Z80 HL register value
(`m_maincpu->state_int(Z80_HL)`), and `unmapValue` the open-bus value
returned by `space.unmap()`. -/
def protection_r (rom : Nat → Nat) (hl unmapValue : Nat) (s : MrdoState) : Nat :=
  if s.pal_enabled then
    if s.bypass_pal then rom hl else s.pal_u001
  else unmapValue

/-- The machine state of the `mrdot` board family right after reset:
constructed through `mrdot_state` (so `m_bypass_pal = false`), protection
left enabled, then `machine_reset`. -/
def mrdotResetState : MrdoState := machine_reset (initState false)

/-- The machine state of the `mrlo` configuration right after reset:
base `mrdo_state` construction (`m_bypass_pal = true`), then
`set_protection(false)` from `mrdo_state::mrlo`, then `machine_reset`. -/
def mrloResetState : MrdoState := set_protection false (machine_reset (initState true))

/-- Sum-of-products value written from the specification's words: input bits
i9..i2 taken from bits 0,1,3,4,5,6,7 of the data byte (bit 2 skipped),
product terms t1..t4 as the documented conjunctions, the latch being the
8-bit complement of the OR of the shifted disjunctions. -/
def spec_sop_value (d : Nat) : Nat :=
  let b (n : Nat) : Bool := (d >>> n) % 2 = 1
  let i9 := b 0
  let i8 := b 1
  let i6 := b 3
  let i5 := b 4
  let i4 := b 5
  let i3 := b 6
  let i2 := b 7
  let t1 := i2 && !i3 && i4 && !i5 && !i6 && !i8 && i9
  let t2 := !i2 && !i3 && i4 && i5 && !i6 && i8 && !i9
  let t3 := i2 && i3 && !i4 && !i5 && i6 && !i8 && i9
  let t4 := !i2 && i3 && i4 && !i5 && i6 && i8 && i9
  let sh (t : Bool) (n : Nat) : Nat := if t then 1 <<< n else 0
  255 ^^^ (sh t1 1 ||| sh (t1 || t2) 2 ||| sh (t1 || t3) 3 |||
    sh t1 4 ||| sh (t1 || t3) 5 ||| sh (t3 || t4) 6)

end MrdoDriver

namespace DocastleDriver

/-- Latch-bridge and raster-edge state of the `docastle_state` driver class
(the `USE_LATCH == false` configuration compiled in the source):
`u8 m_buffer0[9]`, `u8 m_buffer1[9]`, `bool m_prev_ma6`. -/
structure DocastleState where
  buffer0 : List Nat
  buffer1 : List Nat
  prev_ma6 : Bool
deriving Repr, DecidableEq

/-- Scheduler side effect requested by a latch handler: none,
`m_cpu[0]->spin_until_trigger(trigid)`, or
`machine().scheduler().trigger(trigid)`. -/
inductive LatchEffect
  | noEffect
  | spinUntilTrigger (trigid : Nat)
  | triggerSignal (trigid : Nat)
deriving Repr, DecidableEq

/-- In-class member initializers of `docastle_state`: both buffers
zero-filled, `m_prev_ma6 = false`. -/
def initState : DocastleState :=
  { buffer0 := List.replicate 9 0, buffer1 := List.replicate 9 0, prev_ma6 := false }

/-- `docastle_state::machine_reset()`: `std::fill` both buffers with 0 and
`m_prev_ma6 = false`. -/
def machine_reset (s : DocastleState) : DocastleState :=
  { s with
    buffer0 := List.replicate 9 0
    buffer1 := List.replicate 9 0
    prev_ma6 := false }

/-- `docastle_state::cpu1_latch_r(offs_t offset)`: `return m_buffer0[offset]`,
no side effect. -/
def cpu1_latch_r (offset : Nat) (s : DocastleState) : Nat :=
  s.buffer0.getD offset 0

/-- `docastle_state::cpu1_latch_w(offs_t offset, u8 data)`:
`m_buffer1[offset] = data`; when `offset == 8`, freeze execution of the
master CPU via `m_cpu[0]->spin_until_trigger(500)`. -/
def cpu1_latch_w (offset data : Nat) (s : DocastleState) : DocastleState × LatchEffect :=
  ({ s with buffer1 := s.buffer1.set offset data },
   if offset = 8 then LatchEffect.spinUntilTrigger 500 else LatchEffect.noEffect)

/-- `docastle_state::cpu2_latch_r(offs_t offset)`: `return m_buffer1[offset]`,
no side effect. -/
def cpu2_latch_r (offset : Nat) (s : DocastleState) : Nat :=
  s.buffer1.getD offset 0

/-- `docastle_state::cpu2_latch_w(offs_t offset, u8 data)`:
`m_buffer0[offset] = data`; when `offset == 8`, awake the master CPU via
`machine().scheduler().trigger(500)`. -/
def cpu2_latch_w (offset data : Nat) (s : DocastleState) : DocastleState × LatchEffect :=
  ({ s with buffer0 := s.buffer0.set offset data },
   if offset = 8 then LatchEffect.triggerSignal 500 else LatchEffect.noEffect)

/-- `docastle_state::tint(int state)`: on an active call, sample
`BIT(m_crtc->get_ma(), 6)`; on an MA6 rising edge hold-assert IRQ0 on the
second CPU (the returned flag); store the sample in `m_prev_ma6`.
`ma` models `m_crtc->get_ma()`. -/
def tint (state : Bool) (ma : Nat) (s : DocastleState) : DocastleState × Bool :=
  if state then
    let ma6 : Bool := BIT ma 6 == 1
    ({ s with prev_ma6 := ma6 }, ma6 && !s.prev_ma6)
  else (s, false)

/-- Iterate `tint true` over a list of counter samples, collecting the
interrupt-fired flag of each call. -/
def tint_run (mas : List Nat) (s : DocastleState) : List Bool :=
  match mas with
  | [] => []
  | ma :: rest =>
      let r := tint true ma s
      r.2 :: tint_run rest r.1

/-- Modelled from the spec: the host scheduler's suspend primitive
(`device_execute_interface::spin_until_trigger` and
`device_scheduler::trigger`, which are not part of these source files) is
described as suspending the calling task until the earlier of an explicit
resume trigger and a fixed timeout of 500 abstract time units after the
suspension. `resume_time susp trig` is the absolute time at which a task
suspended at time `susp` resumes, where `trig` is the time of the resume
signal, if one is ever issued. -/
def resume_time (susp : Nat) (trig : Option Nat) : Nat :=
  match trig with
  | Option.none => susp + 500
  | Option.some t => min t (susp + 500)

end DocastleDriver

section MrdoTheorems

open MrdoDriver

/-- On 8-bit inputs, the PAL16R6 replica value agrees with the claim's
sum-of-products equations, and flipping bit 2 of the input never changes it. -/
theorem mrdot_pal_value_spec_and_bit2 :
    ∀ d : Fin 256, mrdot_pal_value d.val = spec_sop_value d.val ∧
      mrdot_pal_value d.val = mrdot_pal_value (d.val ^^^ 4) := by
  set_option maxRecDepth 4000 in decide

/-- Claim C1: for every 8-bit input `d`, clocking the protection-enabled
`mrdot` replica (a write reaching `update_protection(d)` through
`protection_w`) and then reading the latch (`protection_r`, which on the
`mrdot` configuration returns `m_pal_u001`) yields exactly the value of the
documented sum-of-products equations, for all 256 inputs. -/
theorem mrdot_protection_truth_table (rom : Nat → Nat) (hl unmapValue : Nat) (d : Fin 256) :
    (protection_w MrdoVariant.mrdot d.val mrdotResetState).pal_u001 = spec_sop_value d.val ∧
    protection_r rom hl unmapValue (protection_w MrdoVariant.mrdot d.val mrdotResetState) =
      spec_sop_value d.val :=
  ⟨(mrdot_pal_value_spec_and_bit2 d).1, (mrdot_pal_value_spec_and_bit2 d).1⟩

/-- Claim C4: clocking the `mrdot` protection replica with two 8-bit inputs
that differ only in bit 2 (their XOR is 4) stores the same latch value. -/
theorem mrdot_protection_bit2_independent (s s' : MrdoState) (d d' : Fin 256)
    (h : d.val ^^^ d'.val = 4) :
    (mrdot_update_protection d.val s).pal_u001 =
      (mrdot_update_protection d'.val s').pal_u001 := by
  have hd : d'.val = d.val ^^^ 4 := by
    calc d'.val = d.val ^^^ d.val ^^^ d'.val := by rw [Nat.xor_self, Nat.zero_xor]
    _ = d.val ^^^ (d.val ^^^ d'.val) := by rw [Nat.xor_assoc]
    _ = d.val ^^^ 4 := by rw [h]
  show mrdot_pal_value d.val = mrdot_pal_value d'.val
  rw [hd]
  exact (mrdot_pal_value_spec_and_bit2 d).2

/-- Witness for C4 at the concrete pair 0 and 4. -/
theorem mrdot_protection_bit2_independent_witness :
    (0 : Nat) ^^^ 4 = 4 ∧
    (mrdot_update_protection 0 mrdotResetState).pal_u001 =
      (mrdot_update_protection 4 mrdotResetState).pal_u001 :=
  ⟨by decide,
   mrdot_protection_bit2_independent mrdotResetState mrdotResetState
     ⟨0, by decide⟩ ⟨4, by decide⟩ (by decide)⟩

/-- Claim C9: bits 0 and 7 of the `mrdot` output latch are always set: the
reset value `0xff` satisfies `value &&& 0x81 = 0x81`, and so does the value
stored by `update_protection` for every 8-bit input, since the terms `r12`
and `r19` are constant zero before the final complement. -/
theorem mrdot_latch_bits0_7_always_set (s s' : MrdoState) :
    (machine_reset s).pal_u001 &&& 0x81 = 0x81 ∧
    ∀ d : Fin 256, (mrdot_update_protection d.val s').pal_u001 &&& 0x81 = 0x81 := by
  refine ⟨?_, fun d => ?_⟩
  · show (0xff : Nat) &&& 0x81 = 0x81
    decide
  show mrdot_pal_value d.val &&& 0x81 = 0x81
  revert d
  set_option maxRecDepth 4000 in decide

/-- Claim C10: on the base `mrdo` variant (bypass flag true), the clock
operation is a no-op — `update_protection` leaves the whole state unchanged —
so after reset the latch stays `0xff` across any sequence of writes routed
through `protection_w`. -/
theorem mrdo_base_protection_noop (writes : List Nat) (s : MrdoState) (d : Nat) :
    mrdo_update_protection d s = s ∧
    (writes.foldl (fun t w => protection_w MrdoVariant.mrdo w t)
      (machine_reset (initState true))).pal_u001 = 0xff := by
  refine ⟨rfl, ?_⟩
  have hid : ∀ (w : Nat) (t : MrdoState), protection_w MrdoVariant.mrdo w t = t := by
    intro w t
    show (if t.pal_enabled then t else t) = t
    exact ite_self t
  have hfold : ∀ (l : List Nat) (t : MrdoState),
      l.foldl (fun t w => protection_w MrdoVariant.mrdo w t) t = t := by
    intro l
    induction l with
    | nil => intro t; rfl
    | cons a l ih => intro t; rw [List.foldl_cons, hid]; exact ih t
  rw [hfold]
  rfl

/-- Claim C2 counterexample: in the `mrlo` configuration after reset
(`pal_enabled = false`, `bypass_pal = true`), with the main ROM constantly
`0x42`, HL = 0 and open-bus value 0, the protection read returns the open-bus
value 0 — not the ROM byte `0x42` at the HL offset claimed. -/
theorem mrlo_protection_read_not_rom :
    mrloResetState.pal_enabled = false ∧ mrloResetState.bypass_pal = true ∧
    protection_r (fun _ => 0x42) 0 0 mrloResetState = 0 ∧
    (fun _ : Nat => (0x42 : Nat)) 0 = 0x42 ∧ (0 : Nat) ≠ 0x42 :=
  ⟨rfl, rfl, rfl, rfl, by decide⟩

/-- Claim C2 as amended: the ROM-at-HL fallback belongs to the configurations
with the enabled flag TRUE and the bypass flag true (base `mrdo`); when the
enabled flag is false (`mrlo`), the read returns the open-bus value
`space.unmap()` instead, regardless of the bypass flag. -/
theorem protection_read_bypass_behaviour (rom : Nat → Nat) (hl unmapValue : Nat)
    (s : MrdoState) :
    (s.pal_enabled = true → s.bypass_pal = true →
      protection_r rom hl unmapValue s = rom hl) ∧
    (s.pal_enabled = false → protection_r rom hl unmapValue s = unmapValue) := by
  constructor
  · intro h1 h2
    simp [protection_r, h1, h2]
  · intro h1
    simp [protection_r, h1]

/-- Witness for the amended C2 at concrete states: the post-reset base `mrdo`
state reads the ROM byte at HL; the post-reset `mrlo` state reads open bus. -/
theorem protection_read_bypass_behaviour_witness :
    protection_r (fun a => a + 7) 3 0 (machine_reset (initState true)) = (fun a => a + 7) 3 ∧
    protection_r (fun a => a + 7) 3 9 mrloResetState = 9 :=
  ⟨(protection_read_bypass_behaviour (fun a => a + 7) 3 0 (machine_reset (initState true))).1
      rfl rfl,
   (protection_read_bypass_behaviour (fun a => a + 7) 3 9 mrloResetState).2 rfl⟩

end MrdoTheorems

section DocastleTheorems

open DocastleDriver

/-- Claim C5: after CPU A writes the nine bytes `b0..b8` at offsets `0..8`
through `cpu1_latch_w` (starting from the post-reset state, with no other
intervening write), CPU B's read `cpu2_latch_r i` returns exactly `bi` for
every offset `i` in `0..8`. -/
theorem latch_bridge_round_trip (b0 b1 b2 b3 b4 b5 b6 b7 b8 : Nat) (i : Fin 9) :
    cpu2_latch_r i.val
      ((cpu1_latch_w 8 b8 ((cpu1_latch_w 7 b7 ((cpu1_latch_w 6 b6 ((cpu1_latch_w 5 b5
        ((cpu1_latch_w 4 b4 ((cpu1_latch_w 3 b3 ((cpu1_latch_w 2 b2 ((cpu1_latch_w 1 b1
        ((cpu1_latch_w 0 b0 (machine_reset initState)).1)).1)).1)).1)).1)).1)).1)).1)).1) =
      [b0, b1, b2, b3, b4, b5, b6, b7, b8].getD i.val 0 := by
  fin_cases i <;> rfl

/-- Claim C6: an active `tint` call fires the second CPU's IRQ exactly when
the sampled MA6 bit is 1 and the stored previous bit is 0, and it stores the
sample unconditionally; over counter samples whose MA6 bits are
`[0,0,1,1,0,1]` (counter values 0 and 64), starting from the reset state,
the interrupt fires exactly at sample indices 2 and 5. -/
theorem raster_edge_detection (s : DocastleState) (ma : Nat) :
    ((tint true ma s).2 = ((BIT ma 6 == 1) && !s.prev_ma6) ∧
     (tint true ma s).1.prev_ma6 = (BIT ma 6 == 1)) ∧
    tint_run [0, 0, 64, 64, 0, 64] initState =
      [false, false, true, false, false, true] :=
  ⟨⟨rfl, rfl⟩, rfl⟩

/-- Claim C7: a latch-bridge write on either side stores the byte into the
written cell of its own buffer and changes nothing else — the opposite
buffer, the raster bit and every other cell are untouched; the scheduler
side effect is `noEffect` for offsets 0..7, and exactly the suspend
(A side) resp. resume trigger (B side) for offset 8. -/
theorem latch_write_effects (s : DocastleState) (off data : Nat) :
    ((cpu1_latch_w off data s).1 = { s with buffer1 := s.buffer1.set off data } ∧
     (cpu2_latch_w off data s).1 = { s with buffer0 := s.buffer0.set off data }) ∧
    (∀ j, j ≠ off → (cpu1_latch_w off data s).1.buffer1[j]? = s.buffer1[j]? ∧
                    (cpu2_latch_w off data s).1.buffer0[j]? = s.buffer0[j]?) ∧
    (off < s.buffer1.length → (cpu1_latch_w off data s).1.buffer1[off]? = some data) ∧
    (off < s.buffer0.length → (cpu2_latch_w off data s).1.buffer0[off]? = some data) ∧
    (off < 8 → (cpu1_latch_w off data s).2 = LatchEffect.noEffect ∧
               (cpu2_latch_w off data s).2 = LatchEffect.noEffect) ∧
    (off = 8 → (cpu1_latch_w off data s).2 = LatchEffect.spinUntilTrigger 500 ∧
               (cpu2_latch_w off data s).2 = LatchEffect.triggerSignal 500) := by
  refine ⟨⟨rfl, rfl⟩, ?_, ?_, ?_, ?_, ?_⟩
  · intro j hj
    exact ⟨List.getElem?_set_ne (fun h => hj h.symm),
           List.getElem?_set_ne (fun h => hj h.symm)⟩
  · intro h
    exact List.getElem?_set_eq_of_lt data h
  · intro h
    exact List.getElem?_set_eq_of_lt data h
  · intro h
    have hne : off ≠ 8 := Nat.ne_of_lt h
    constructor
    · show (if off = 8 then LatchEffect.spinUntilTrigger 500 else LatchEffect.noEffect) =
        LatchEffect.noEffect
      rw [if_neg hne]
    · show (if off = 8 then LatchEffect.triggerSignal 500 else LatchEffect.noEffect) =
        LatchEffect.noEffect
      rw [if_neg hne]
  · intro h
    subst h
    exact ⟨rfl, rfl⟩

/-- Witness for C7: on the post-power-up state, a payload write at offset 3
has no scheduler effect, while offset-8 writes request the suspend on the
A side and the resume trigger on the B side. -/
theorem latch_write_effects_witness :
    (cpu1_latch_w 3 7 initState).2 = LatchEffect.noEffect ∧
    (cpu1_latch_w 8 7 initState).2 = LatchEffect.spinUntilTrigger 500 ∧
    (cpu2_latch_w 8 7 initState).2 = LatchEffect.triggerSignal 500 :=
  ⟨((latch_write_effects initState 3 7).2.2.2.2.1 (by decide)).1,
   ((latch_write_effects initState 8 7).2.2.2.2.2 rfl).1,
   ((latch_write_effects initState 8 7).2.2.2.2.2 rfl).2⟩

/-- Claim C3: with the scheduler's suspend primitive modelled from the spec,
a task suspended at time `susp` with no resume signal ever issued resumes at
exactly `susp + 500`; with any signal the resumption is never later than
`susp + 500` and is the earlier of the signal and the timeout; and the
offset-8 writes are precisely the suspend and resume requests. -/
theorem suspend_timeout_bound :
    (∀ susp : Nat, resume_time susp Option.none = susp + 500) ∧
    (∀ (susp : Nat) (trig : Option Nat), resume_time susp trig ≤ susp + 500) ∧
    (∀ susp t : Nat, resume_time susp (Option.some t) = min t (susp + 500)) ∧
    (∀ (d : Nat) (s : DocastleState),
      (cpu1_latch_w 8 d s).2 = LatchEffect.spinUntilTrigger 500 ∧
      (cpu2_latch_w 8 d s).2 = LatchEffect.triggerSignal 500) := by
  refine ⟨fun _ => rfl, ?_, fun _ _ => rfl, fun _ _ => ⟨rfl, rfl⟩⟩
  intro susp trig
  cases trig with
  | none => exact Nat.le_refl _
  | some t => exact min_le_right t (susp + 500)

/-- Claim C8: `machine_reset` fills both 9-byte latch buffers with zeros at
every offset, resets the protection latch to `0xff` (the 8-bit complement of
zero), and resets the raster edge detector's stored bit to LOW. -/
theorem machine_reset_state (sd : DocastleState) (sm : MrdoDriver.MrdoState) :
    (machine_reset sd).buffer0 = List.replicate 9 0 ∧
    (machine_reset sd).buffer1 = List.replicate 9 0 ∧
    (∀ i : Fin 9, (machine_reset sd).buffer0.getD i.val 0 = 0 ∧
                  (machine_reset sd).buffer1.getD i.val 0 = 0) ∧
    (MrdoDriver.machine_reset sm).pal_u001 = 0xff ∧
    (MrdoDriver.machine_reset sm).pal_u001 = 255 ^^^ 0 ∧
    (machine_reset sd).prev_ma6 = false := by
  refine ⟨rfl, rfl, ?_, rfl, ?_, rfl⟩
  · intro i
    fin_cases i <;> exact ⟨rfl, rfl⟩
  · show (0xff : Nat) = 255 ^^^ 0
    decide

end DocastleTheorems
